import Mathlib

/-!
# CloudDB user metric resource (entity_usermetric.go)

A shallow embedding of the request handlers of `entity_usermetric.go` and of the
datastore operations they call, followed by the properties of the resource
lifecycle: create, replace, soft-delete, set-curated, fetch-by-key and
list-headers-since.

Conventions of the embedding

* a Go `error` value is an `Option DSError` (`none` is `nil`);
* a handler is a function from the datastore before the request to the datastore
  after it, paired with what the handler did to its `response`;
* the outcome of each datastore call (success, schema drift, backend failure) and
  the reading of the wall clock are arguments of the handler;
* the common header mappers, which live in another file of the package, are
  arguments of the handlers (`CommonHeaderMappers`).
-/

namespace CloudDB

/-! ## Data model -/

/-- Instants of the wall clock (`time.Time`), counted from the zero instant `time.Time{}`. -/
abbrev Time := Int

/-- The zero instant `time.Time{}`. -/
def zeroTime : Time := 0

/-- Modelled from the spec: `CommonEntityHeader` is declared in another file of the package.
The fields are the ones this file reads or writes (`CreatorId`, `LastChanged`, `Curated`,
`Deleted`); `Other` stands for the remaining header fields, which this file never touches. -/
structure CommonEntityHeader where
  CreatorId : String
  LastChanged : Time
  Curated : Bool
  Deleted : Bool
  Other : String
deriving DecidableEq

/-- Modelled from the spec: `CommonAPIHeaderV1` is declared in another file of the package.
`Key` is the field this file reads and writes; the other fields mirror the stored header. -/
structure CommonAPIHeaderV1 where
  Key : String
  CreatorId : String
  LastChanged : Time
  Curated : Bool
  Deleted : Bool
  Other : String
deriving DecidableEq

/-- Full user metric definition as stored in the datastore. -/
structure UserMetricEntity where
  Header : CommonEntityHeader
  MetricXML : String
  CreatorNick : String
  CreatorEmail : String
deriving DecidableEq

/-- Header-only view of a stored user metric. -/
structure UserMetricEntityHeaderOnly where
  Header : CommonEntityHeader
deriving DecidableEq

/-- Full API structure for GET and PUT. -/
structure UserMetricAPIv1 where
  Header : CommonAPIHeaderV1
  MetricXML : String
  CreatorNick : String
  CreatorEmail : String
deriving DecidableEq

/-- Header-only API structure. -/
structure UserMetricAPIv1HeaderOnly where
  Header : CommonAPIHeaderV1
deriving DecidableEq

/-- The zero value of `CommonEntityHeader`. -/
def CommonEntityHeader.zero : CommonEntityHeader :=
  { CreatorId := "", LastChanged := zeroTime, Curated := false, Deleted := false, Other := "" }

/-- The zero value of `CommonAPIHeaderV1`. -/
def CommonAPIHeaderV1.zero : CommonAPIHeaderV1 :=
  { Key := "", CreatorId := "", LastChanged := zeroTime, Curated := false, Deleted := false,
    Other := "" }

/-- The value `new(UserMetricEntity)` points to. -/
def UserMetricEntity.new : UserMetricEntity :=
  { Header := CommonEntityHeader.zero, MetricXML := "", CreatorNick := "", CreatorEmail := "" }

/-- The value `new(UserMetricAPIv1)` points to. -/
def UserMetricAPIv1.new : UserMetricAPIv1 :=
  { Header := CommonAPIHeaderV1.zero, MetricXML := "", CreatorNick := "", CreatorEmail := "" }

/-- The zero value of `UserMetricAPIv1HeaderOnly` (`var metric UserMetricAPIv1HeaderOnly`). -/
def UserMetricAPIv1HeaderOnly.zero : UserMetricAPIv1HeaderOnly :=
  { Header := CommonAPIHeaderV1.zero }

/-- The common header mappers `mapAPItoDBCommonHeader` and `mapDBtoAPICommonHeader`, defined in
another file of the package. Each receives the source header and the current content of the
destination header and returns the destination header after the call. -/
structure CommonHeaderMappers where
  mapAPItoDBCommonHeader : CommonAPIHeaderV1 → CommonEntityHeader → CommonEntityHeader
  mapDBtoAPICommonHeader : CommonEntityHeader → CommonAPIHeaderV1 → CommonAPIHeaderV1

/-- Modelled from the spec: the common header mappers are missing from this file; the spec
says the mapper preserves the header fields verbatim, and that the API `Key` is not taken
from the stored header but set from the store key by the caller. -/
def verbatimMappers : CommonHeaderMappers :=
  { mapAPItoDBCommonHeader := fun api db =>
      { db with CreatorId := api.CreatorId, LastChanged := api.LastChanged,
                Curated := api.Curated, Deleted := api.Deleted, Other := api.Other }
    mapDBtoAPICommonHeader := fun db api =>
      { api with CreatorId := db.CreatorId, LastChanged := db.LastChanged,
                 Curated := db.Curated, Deleted := db.Deleted, Other := db.Other } }

/-! ## Data storage view -/

/-- Projection `mapAPItoDBUserMetric(api, db)`: the content of `db` after the call. -/
def mapAPItoDBUserMetric (M : CommonHeaderMappers) (api : UserMetricAPIv1)
    (db : UserMetricEntity) : UserMetricEntity :=
  { Header := M.mapAPItoDBCommonHeader api.Header db.Header
    MetricXML := api.MetricXML
    CreatorNick := api.CreatorNick
    CreatorEmail := api.CreatorEmail }

/-- Projection `mapDBtoAPIUserMetric(db, api)`: the content of `api` after the call. -/
def mapDBtoAPIUserMetric (M : CommonHeaderMappers) (db : UserMetricEntity)
    (api : UserMetricAPIv1) : UserMetricAPIv1 :=
  { Header := M.mapDBtoAPICommonHeader db.Header api.Header
    MetricXML := db.MetricXML
    CreatorNick := db.CreatorNick
    CreatorEmail := db.CreatorEmail }

/-! ## The datastore -/

/-- Errors a datastore call returns. -/
inductive DSError where
  | ErrNoSuchEntity
  | ErrFieldMismatch
  | Backend (msg : String)
deriving DecidableEq

/-- The text `err.Error()` of a Go error (the nil case is never evaluated by the handlers). -/
def errorText : Option DSError → String
  | none => ""
  | some .ErrNoSuchEntity => "datastore: no such entity"
  | some .ErrFieldMismatch => "datastore: cannot load field"
  | some (.Backend msg) => msg

/-- Modelled from the spec: `isErrFieldMismatch` is defined in another file of the package; it
recognises the benign schema-mismatch category of read errors. -/
def isErrFieldMismatch (err : Option DSError) : Bool :=
  match err with
  | some .ErrFieldMismatch => true
  | _ => false

/-- How a read of the datastore goes, apart from what is stored: normally, with a schema
drift reported next to the decoded data, or with a backend failure. -/
inductive ReadFault where
  | ok
  | fieldMismatch
  | backend (msg : String)
deriving DecidableEq

/-- Outcome of the datastore calls of one request: of `Get`, of `Put`, of the curator `Count`
and of `GetAll`. `none` for `put` and `count` means the call succeeds. -/
structure Faults where
  get : ReadFault
  put : Option String
  count : Option String
  getAll : ReadFault
deriving DecidableEq

/-- No datastore call fails. -/
def Faults.none : Faults :=
  { get := .ok, put := Option.none, count := Option.none, getAll := .ok }

/-- The datastore: the entities of kind `usermetricentity` under the collection root, each
with the string id of its key, and the `CuratorId` of every entity of the curator kind. -/
structure Datastore where
  usermetricentity : List (String × UserMetricEntity)
  curatorentity : List String
deriving DecidableEq

/-- The entity stored under a key, if any. -/
def lookupEntity : List (String × UserMetricEntity) → String → Option UserMetricEntity
  | [], _ => none
  | (k, e) :: rest, key => if k = key then some e else lookupEntity rest key

/-- Store an entity under a key, replacing the entity already stored there. -/
def putEntity : List (String × UserMetricEntity) → String → UserMetricEntity →
    List (String × UserMetricEntity)
  | [], key, src => [(key, src)]
  | (k, e) :: rest, key, src =>
      if k = key then (key, src) :: rest else (k, e) :: putEntity rest key src

/-- Call `datastore.Get(ctx, key, dst)`: the error returned and the content of `dst` after the
call. -/
def datastoreGet (f : ReadFault) (ds : Datastore) (key : String) (dst : UserMetricEntity) :
    Option DSError × UserMetricEntity :=
  match f with
  | .backend msg => (some (.Backend msg), dst)
  | .fieldMismatch =>
      match lookupEntity ds.usermetricentity key with
      | none => (some .ErrNoSuchEntity, dst)
      | some e => (some .ErrFieldMismatch, e)
  | .ok =>
      match lookupEntity ds.usermetricentity key with
      | none => (some .ErrNoSuchEntity, dst)
      | some e => (none, e)

/-- Call `datastore.Put(ctx, key, src)`: the error returned and the datastore after the call. -/
def datastorePut (f : Option String) (ds : Datastore) (key : String) (src : UserMetricEntity) :
    Option DSError × Datastore :=
  match f with
  | some msg => (some (.Backend msg), ds)
  | none => (none, { ds with usermetricentity := putEntity ds.usermetricentity key src })

/-- Call `datastore.NewQuery(curatorDBEntity).Filter("CuratorId =", id).Count(ctx)`: the counter
and the error returned; a failing count returns 0. -/
def curatorCount (f : Option String) (ds : Datastore) (id : String) : Nat × Option DSError :=
  match f with
  | some msg => (0, some (.Backend msg))
  | none => (ds.curatorentity.count id, none)

/-- Order of the results of a query with `Order("Header.LastChanged")`: ascending
`LastChanged`, entities with equal `LastChanged` by ascending key (the string ids compared
character by character, which is the order of `String`). -/
def headerOrder (a b : String × UserMetricEntity) : Prop :=
  a.2.Header.LastChanged < b.2.Header.LastChanged ∨
    (a.2.Header.LastChanged = b.2.Header.LastChanged ∧ a.1.toList ≤ b.1.toList)

instance headerOrderDecidable : DecidableRel headerOrder := fun a b =>
  inferInstanceAs (Decidable
    (a.2.Header.LastChanged < b.2.Header.LastChanged ∨
      (a.2.Header.LastChanged = b.2.Header.LastChanged ∧ a.1.toList ≤ b.1.toList)))

/-- The entities a query
`Filter("Header.LastChanged >=", date).Order("Header.LastChanged").Limit(limit)` selects. -/
def queryHeadersSince (ds : Datastore) (date : Time) (limit : Nat) :
    List (String × UserMetricEntity) :=
  (List.insertionSort headerOrder
    (ds.usermetricentity.filter (fun p => decide (date ≤ p.2.Header.LastChanged)))).take limit

/-- Call `q.GetAll(ctx, &metricsOnDBList)` for the query above: the keys with the header-only
entities decoded (index-aligned slices in the source, a list of pairs here) and the error. -/
def datastoreGetAll (f : ReadFault) (ds : Datastore) (date : Time) (limit : Nat) :
    List (String × UserMetricEntityHeaderOnly) × Option DSError :=
  match f with
  | .backend msg => ([], some (.Backend msg))
  | .fieldMismatch =>
      ((queryHeadersSince ds date limit).map (fun p => (p.1, { Header := p.2.Header })),
        some .ErrFieldMismatch)
  | .ok =>
      ((queryHeadersSince ds date limit).map (fun p => (p.1, { Header := p.2.Header })), none)

/-! ## Requests and responses -/

/-- The parts of a `restful.Request` the handlers read: the decoded body (`ReadEntity`), the
path parameter `key` and the query parameters `dateFrom` and `newStatus`. -/
structure Request where
  ReadEntity : Except String UserMetricAPIv1
  key : String
  dateFrom : String
  newStatus : String

/-- Entities written to a response. -/
inductive Entity where
  | text (s : String)
  | metric (m : UserMetricAPIv1)
  | headerList (l : List UserMetricAPIv1HeaderOnly)
deriving DecidableEq

/-- What a handler did to its `response`: one of the calls `addPlainTextError`,
`commonResponseErrorProcessing` (both defined in another file of the package) or
`WriteHeaderAndEntity`. -/
inductive Response where
  | addPlainTextError (status : Nat) (msg : String)
  | commonResponseErrorProcessing (err : Option DSError)
  | WriteHeaderAndEntity (status : Nat) (e : Entity)
deriving DecidableEq

def StatusOK : Nat := 200
def StatusCreated : Nat := 201
def StatusNoContent : Nat := 204
def StatusBadRequest : Nat := 400
def StatusConflict : Nat := 409
def StatusInternalServerError : Nat := 500

/-- Limit of the header listing. -/
def maxNumberOfHeadersPerCall : Nat := 200

/-- Go's `strconv.ParseBool`. -/
def ParseBool (str : String) : Except String Bool :=
  if str = "1" ∨ str = "t" ∨ str = "T" ∨ str = "TRUE" ∨ str = "true" ∨ str = "True" then
    .ok true
  else if str = "0" ∨ str = "f" ∨ str = "F" ∨ str = "FALSE" ∨ str = "false" ∨ str = "False" then
    .ok false
  else
    .error ("strconv.ParseBool: parsing " ++ str.quote ++ ": invalid syntax")

/-! ## Request handlers -/

/-- Handler `insertUserMetric` (POST). -/
def insertUserMetric (M : CommonHeaderMappers) (f : Faults) (now : Time) (ds : Datastore)
    (request : Request) : Datastore × Response :=
  match request.ReadEntity with
  | .error msg => (ds, .addPlainTextError StatusInternalServerError msg)
  | .ok metric =>
    if metric.Header.Key = "" then
      (ds, .addPlainTextError StatusBadRequest "Mandatory Key for Insert is missing or invalid")
    else
      -- check for duplicates first
      let key := metric.Header.Key
      let got := datastoreGet f.get ds key UserMetricEntity.new
      let err := got.1
      let metricDB := got.2
      if err ≠ none ∧ isErrFieldMismatch err = false then
        if err = some .ErrNoSuchEntity then
          (ds, .addPlainTextError StatusConflict (errorText err))
        else
          (ds, .commonResponseErrorProcessing err)
      else
        let metricDB := mapAPItoDBUserMetric M metric metricDB
        -- complete/set POST fields
        let metricDB := { metricDB with Header := { metricDB.Header with LastChanged := now } }
        let metricDB := { metricDB with Header := { metricDB.Header with Curated := false } }
        let metricDB := { metricDB with Header := { metricDB.Header with Deleted := false } }
        -- auto-curate if a registered curator is adding the user metric
        let counter := (curatorCount f.count ds metricDB.Header.CreatorId).1
        let metricDB :=
          if counter = 1 then { metricDB with Header := { metricDB.Header with Curated := true } }
          else { metricDB with Header := { metricDB.Header with Curated := false } }
        -- and now store it
        let stored := datastorePut f.put ds key metricDB
        if stored.1 ≠ none then
          (ds, .commonResponseErrorProcessing stored.1)
        else
          (stored.2, .WriteHeaderAndEntity StatusCreated (.text key))

/-- Handler `updateUserMetric` (PUT). -/
def updateUserMetric (M : CommonHeaderMappers) (f : Faults) (now : Time) (ds : Datastore)
    (request : Request) : Datastore × Response :=
  match request.ReadEntity with
  | .error msg => (ds, .addPlainTextError StatusInternalServerError msg)
  | .ok metric =>
    if metric.Header.Key = "" then
      (ds, .addPlainTextError StatusBadRequest "Mandatory Key for Update is missing or invalid")
    else
      let metricDB := mapAPItoDBUserMetric M metric UserMetricEntity.new
      let metricDB := { metricDB with Header := { metricDB.Header with LastChanged := now } }
      -- and now store it
      let key := metric.Header.Key
      let stored := datastorePut f.put ds key metricDB
      if stored.1 ≠ none then
        (ds, .commonResponseErrorProcessing stored.1)
      else
        (stored.2, .WriteHeaderAndEntity StatusNoContent (.text ""))

/-- The instant the listing starts from: the parsed `dateFrom`, the zero instant when the
parameter is absent. `parseRFC3339` is `time.Parse(time.RFC3339, ·)`. -/
def dateFromOf (parseRFC3339 : String → Except String Time) (request : Request) :
    Except String Time :=
  if request.dateFrom ≠ "" then parseRFC3339 request.dateFrom else .ok zeroTime

/-- Body of the loop of `getUserMetricHeader`: map one decoded row back to the API view. -/
def headerOnlyToAPI (M : CommonHeaderMappers) (row : String × UserMetricEntityHeaderOnly) :
    UserMetricAPIv1HeaderOnly :=
  let metric := UserMetricAPIv1HeaderOnly.zero
  let metric := { metric with Header := M.mapDBtoAPICommonHeader row.2.Header metric.Header }
  { metric with Header := { metric.Header with Key := row.1 } }

/-- Handler `getUserMetricHeader` (GET, listing). -/
def getUserMetricHeader (M : CommonHeaderMappers) (parseRFC3339 : String → Except String Time)
    (f : Faults) (ds : Datastore) (request : Request) : Response :=
  match dateFromOf parseRFC3339 request with
  | .error msg =>
      .addPlainTextError StatusBadRequest (msg ++ " - Correct format is RFC3339")
  | .ok date =>
      let res := datastoreGetAll f.getAll ds date maxNumberOfHeadersPerCall
      let err := res.2
      if err ≠ none ∧ isErrFieldMismatch err = false then
        .commonResponseErrorProcessing err
      else
        -- DB Entity needs to be mapped back
        .WriteHeaderAndEntity StatusOK (.headerList (res.1.map (headerOnlyToAPI M)))

/-- Handler `getUserMetricByKey` (GET by key). -/
def getUserMetricByKey (M : CommonHeaderMappers) (f : Faults) (ds : Datastore)
    (request : Request) : Response :=
  let userKey := request.key
  if userKey = "" then
    .addPlainTextError StatusBadRequest "Mandatory Key for Update is missing or invalid"
  else
    let got := datastoreGet f.get ds userKey UserMetricEntity.new
    let err := got.1
    let metricDB := got.2
    if err ≠ none ∧ isErrFieldMismatch err = false then
      .commonResponseErrorProcessing err
    else
      -- now map and respond
      let metric := mapDBtoAPIUserMetric M metricDB UserMetricAPIv1.new
      let metric := { metric with Header := { metric.Header with Key := userKey } }
      .WriteHeaderAndEntity StatusOK (.metric metric)

/-- Supporting function `changeUserMetricByKey`; `nowDeleted` and `nowCurated` are the
readings of the clock in the two branches. -/
def changeUserMetricByKey (f : Faults) (nowDeleted nowCurated : Time) (ds : Datastore)
    (request : Request) (changeDeleted changeCurated newStatus : Bool) : Datastore × Response :=
  let userKey := request.key
  if userKey = "" then
    (ds, .addPlainTextError StatusBadRequest "Mandatory Key for Update is missing or invalid")
  else
    let got := datastoreGet f.get ds userKey UserMetricEntity.new
    let err := got.1
    let metricDB := got.2
    if err ≠ none ∧ isErrFieldMismatch err = false then
      (ds, .commonResponseErrorProcessing err)
    else
      -- now update like requested
      let metricDB :=
        if changeDeleted then
          let metricDB := { metricDB with Header := { metricDB.Header with Deleted := newStatus } }
          let metricDB := if newStatus then { metricDB with MetricXML := "" } else metricDB
          { metricDB with Header := { metricDB.Header with LastChanged := nowDeleted } }
        else metricDB
      let metricDB :=
        if changeCurated then
          let metricDB := { metricDB with Header := { metricDB.Header with Curated := newStatus } }
          { metricDB with Header := { metricDB.Header with LastChanged := nowCurated } }
        else metricDB
      let stored := datastorePut f.put ds userKey metricDB
      if stored.1 ≠ none then
        (ds, .commonResponseErrorProcessing stored.1)
      else
        (stored.2, .WriteHeaderAndEntity StatusNoContent (.text ""))

/-- Handler `deleteUserMetricByKey` (DELETE). -/
def deleteUserMetricByKey (f : Faults) (now : Time) (ds : Datastore) (request : Request) :
    Datastore × Response :=
  changeUserMetricByKey f now now ds request true false true

/-- Handler `curateUserMetricByKey` (PUT curate). -/
def curateUserMetricByKey (f : Faults) (now : Time) (ds : Datastore) (request : Request) :
    Datastore × Response :=
  match ParseBool request.newStatus with
  | .error msg => (ds, .addPlainTextError StatusBadRequest msg)
  | .ok b => changeUserMetricByKey f now now ds request false true b

/-! ## Sequences of operations -/

/-- The four state-affecting operations of the resource. -/
inductive Operation where
  | create
  | replace
  | softDelete
  | setCurated
deriving DecidableEq

/-- One call of a state-affecting operation: the request, the outcome of the datastore calls
it makes and the reading of the clock. -/
structure Call where
  op : Operation
  request : Request
  faults : Faults
  now : Time

/-- The datastore after one call. -/
def step (M : CommonHeaderMappers) (ds : Datastore) (c : Call) : Datastore :=
  match c.op with
  | .create => (insertUserMetric M c.faults c.now ds c.request).1
  | .replace => (updateUserMetric M c.faults c.now ds c.request).1
  | .softDelete => (deleteUserMetricByKey c.faults c.now ds c.request).1
  | .setCurated => (curateUserMetricByKey c.faults c.now ds c.request).1

/-- The datastore after a sequence of calls. -/
def run (M : CommonHeaderMappers) (ds : Datastore) (calls : List Call) : Datastore :=
  calls.foldl (step M) ds

/-- Tombstone invariant: every stored Record with `Deleted = true` has an empty payload. -/
def TombstoneInvariant (ds : Datastore) : Prop :=
  ∀ p ∈ ds.usermetricentity, p.2.Header.Deleted = true → p.2.MetricXML = ""

/-- A call that is not a replace whose projected request is a tombstone with a payload. -/
def Call.tombstoneSafe (M : CommonHeaderMappers) (c : Call) : Prop :=
  c.op = .replace → ∀ metric, c.request.ReadEntity = .ok metric →
    (M.mapAPItoDBCommonHeader metric.Header CommonEntityHeader.zero).Deleted = true →
      metric.MetricXML = ""

/-! ## Sample data -/

/-- A metric sent by a client under the key m1; it carries `Curated` and `Deleted` set. -/
def sampleMetric : UserMetricAPIv1 :=
  { Header := { Key := "m1", CreatorId := "c1", LastChanged := 3, Curated := true,
                Deleted := true, Other := "en" }
    MetricXML := "<x/>"
    CreatorNick := "nick"
    CreatorEmail := "nick@example.org" }

/-- A request whose body is `sampleMetric` and whose path key is m1. -/
def sampleRequest : Request :=
  { ReadEntity := .ok sampleMetric, key := "m1", dateFrom := "", newStatus := "true" }

/-- A live Record. -/
def sampleEntity : UserMetricEntity :=
  { Header := { CreatorId := "c0", LastChanged := 5, Curated := false, Deleted := false,
                Other := "de" }
    MetricXML := "<old/>"
    CreatorNick := "old"
    CreatorEmail := "old@example.org" }

/-- A tombstoned Record. -/
def sampleTombstone : UserMetricEntity :=
  { Header := { CreatorId := "c0", LastChanged := 7, Curated := false, Deleted := true,
                Other := "de" }
    MetricXML := ""
    CreatorNick := "old"
    CreatorEmail := "old@example.org" }

/-- A datastore holding no Record; c1 is a registered curator. -/
def emptyStore : Datastore := { usermetricentity := [], curatorentity := ["c1"] }

/-- A datastore holding the live Record at m1. -/
def sampleStore : Datastore :=
  { usermetricentity := [("m1", sampleEntity)], curatorentity := ["c1"] }

/-- A datastore holding the tombstoned Record at m1. -/
def tombstoneStore : Datastore :=
  { usermetricentity := [("m1", sampleTombstone)], curatorentity := ["c1"] }

/-- A Record last changed at the given instant. -/
def entityChangedAt (t : Time) : UserMetricEntity :=
  { sampleEntity with Header := { sampleEntity.Header with LastChanged := t } }

/-- A datastore holding four Records, stored in an order that is not the order of change. -/
def listStore : Datastore :=
  { usermetricentity :=
      [("m3", entityChangedAt 30), ("m1", entityChangedAt 10), ("m4", entityChangedAt 20),
        ("m2", entityChangedAt 20)]
    curatorentity := [] }

/-- A listing request without `dateFrom`. -/
def listRequest : Request :=
  { ReadEntity := .error "EOF", key := "", dateFrom := "", newStatus := "" }

/-- A datastore holding 250 Records, the Record number i last changed at instant i. -/
def bigStore : Datastore :=
  { usermetricentity :=
      (List.range 250).map (fun i => (toString i, entityChangedAt (Int.ofNat i)))
    curatorentity := [] }

/-- A metric sent by a client under the key m1 with `Deleted` not set. -/
def liveMetric : UserMetricAPIv1 :=
  { sampleMetric with Header := { sampleMetric.Header with Deleted := false } }

/-- A request whose body is `liveMetric` and whose path key is m1. -/
def liveRequest : Request :=
  { ReadEntity := .ok liveMetric, key := "m1", dateFrom := "", newStatus := "false" }

/-- One replace whose request carries `Deleted = true` together with a payload. -/
def tombstoneReplaceCall : Call :=
  { op := .replace, request := sampleRequest, faults := Faults.none, now := 10 }

/-- A create, a replace of a live Record, then its soft-delete and a set-curated. -/
def sampleCalls : List Call :=
  [ { op := .create, request := liveRequest, faults := Faults.none, now := 5 },
    { op := .replace, request := liveRequest, faults := Faults.none, now := 10 },
    { op := .softDelete, request := liveRequest, faults := Faults.none, now := 20 },
    { op := .setCurated, request := liveRequest, faults := Faults.none, now := 30 } ]

/-! ## Basic facts about the store -/

theorem lookupEntity_putEntity_same (l : List (String × UserMetricEntity)) (key : String)
    (src : UserMetricEntity) : lookupEntity (putEntity l key src) key = some src := by
  induction l with
  | nil => simp [putEntity, lookupEntity]
  | cons p rest ih =>
    obtain ⟨k, e⟩ := p
    by_cases h : k = key
    · simp [putEntity, lookupEntity, h]
    · simp [putEntity, lookupEntity, h, ih]

theorem lookupEntity_putEntity_other (l : List (String × UserMetricEntity)) (key other : String)
    (src : UserMetricEntity) (hne : other ≠ key) :
    lookupEntity (putEntity l key src) other = lookupEntity l other := by
  induction l with
  | nil => simp [putEntity, lookupEntity, Ne.symm hne]
  | cons p rest ih =>
    obtain ⟨k, e⟩ := p
    by_cases h : k = key
    · subst h
      simp [putEntity, lookupEntity, Ne.symm hne]
    · by_cases h2 : k = other
      · subst h2
        simp [putEntity, lookupEntity, hne]
      · simp [putEntity, lookupEntity, h, h2, ih]

theorem mem_putEntity (l : List (String × UserMetricEntity)) (key : String)
    (src : UserMetricEntity) (p : String × UserMetricEntity) (hp : p ∈ putEntity l key src) :
    p = (key, src) ∨ p ∈ l := by
  induction l with
  | nil => simpa [putEntity] using hp
  | cons q rest ih =>
    obtain ⟨k, e⟩ := q
    by_cases h : k = key
    · simp only [putEntity, h, if_true, List.mem_cons] at hp
      rcases hp with hp | hp
      · exact Or.inl hp
      · exact Or.inr (List.mem_cons_of_mem _ hp)
    · simp only [putEntity, h, if_false, List.mem_cons] at hp
      rcases hp with hp | hp
      · exact Or.inr (by simp [hp])
      · rcases ih hp with h1 | h1
        · exact Or.inl h1
        · exact Or.inr (List.mem_cons_of_mem _ h1)

theorem lookupEntity_mem (l : List (String × UserMetricEntity)) (key : String)
    (e : UserMetricEntity) (h : lookupEntity l key = some e) : (key, e) ∈ l := by
  induction l with
  | nil => simp [lookupEntity] at h
  | cons q rest ih =>
    obtain ⟨k, e0⟩ := q
    by_cases hk : k = key
    · simp [lookupEntity, hk] at h
      simp [hk, h]
    · simp [lookupEntity, hk] at h
      exact List.mem_cons_of_mem _ (ih h)

/-! ## Outcomes of the handlers -/

/-- Soft-delete either leaves the datastore as it is and reports an error, or finds a Record
at the key and writes it back once as a tombstone. -/
theorem deleteUserMetricByKey_cases (f : Faults) (now : Time) (ds : Datastore)
    (request : Request) :
    ((deleteUserMetricByKey f now ds request).1 = ds ∧
      ∀ st e, (deleteUserMetricByKey f now ds request).2 ≠ .WriteHeaderAndEntity st e) ∨
    (∃ e0 stored, lookupEntity ds.usermetricentity request.key = some e0 ∧ request.key ≠ "" ∧
      stored = { e0 with Header := { e0.Header with Deleted := true, LastChanged := now },
                         MetricXML := "" } ∧
      deleteUserMetricByKey f now ds request =
        ({ ds with usermetricentity := putEntity ds.usermetricentity request.key stored },
          .WriteHeaderAndEntity StatusNoContent (.text ""))) := by
  obtain ⟨g, p, c, ga⟩ := f
  by_cases hk : request.key = ""
  · left
    simp [deleteUserMetricByKey, changeUserMetricByKey, hk]
  · cases g <;> cases p <;> cases hl : lookupEntity ds.usermetricentity request.key <;>
      simp [deleteUserMetricByKey, changeUserMetricByKey, datastoreGet, datastorePut, hk, hl,
        isErrFieldMismatch]

/-- Set-curated either leaves the datastore as it is and reports an error, or finds a Record
at the key and writes it back once with the new flag. -/
theorem curateUserMetricByKey_cases (f : Faults) (now : Time) (ds : Datastore)
    (request : Request) :
    ((curateUserMetricByKey f now ds request).1 = ds ∧
      ∀ st e, (curateUserMetricByKey f now ds request).2 ≠ .WriteHeaderAndEntity st e) ∨
    (∃ e0 b stored, ParseBool request.newStatus = .ok b ∧
      lookupEntity ds.usermetricentity request.key = some e0 ∧ request.key ≠ "" ∧
      stored = { e0 with Header := { e0.Header with Curated := b, LastChanged := now } } ∧
      curateUserMetricByKey f now ds request =
        ({ ds with usermetricentity := putEntity ds.usermetricentity request.key stored },
          .WriteHeaderAndEntity StatusNoContent (.text ""))) := by
  obtain ⟨g, p, c, ga⟩ := f
  cases hb : ParseBool request.newStatus with
  | error msg =>
    left
    simp [curateUserMetricByKey, hb]
  | ok b =>
    by_cases hk : request.key = ""
    · left
      simp [curateUserMetricByKey, changeUserMetricByKey, hb, hk]
    · cases g <;> cases p <;> cases hl : lookupEntity ds.usermetricentity request.key <;>
        simp [curateUserMetricByKey, changeUserMetricByKey, datastoreGet, datastorePut, hb, hk,
          hl, isErrFieldMismatch]

/-- Create either leaves the datastore as it is and does not answer 201, or finds a Record
already stored at the key and overwrites it. -/
theorem insertUserMetric_cases (M : CommonHeaderMappers) (f : Faults) (now : Time)
    (ds : Datastore) (request : Request) :
    ((insertUserMetric M f now ds request).1 = ds ∧
      ∀ st e, (insertUserMetric M f now ds request).2 ≠ .WriteHeaderAndEntity st e) ∨
    (∃ metric e0 stored, request.ReadEntity = .ok metric ∧ metric.Header.Key ≠ "" ∧
      lookupEntity ds.usermetricentity metric.Header.Key = some e0 ∧
      stored =
        { Header :=
            { M.mapAPItoDBCommonHeader metric.Header e0.Header with
              LastChanged := now
              Curated := decide ((curatorCount f.count ds
                (M.mapAPItoDBCommonHeader metric.Header e0.Header).CreatorId).1 = 1)
              Deleted := false }
          MetricXML := metric.MetricXML
          CreatorNick := metric.CreatorNick
          CreatorEmail := metric.CreatorEmail } ∧
      insertUserMetric M f now ds request =
        ({ ds with usermetricentity := putEntity ds.usermetricentity metric.Header.Key stored },
          .WriteHeaderAndEntity StatusCreated (.text metric.Header.Key))) := by
  obtain ⟨g, p, c, ga⟩ := f
  cases hr : request.ReadEntity with
  | error msg =>
    left
    simp [insertUserMetric, hr]
  | ok metric =>
    by_cases hk : metric.Header.Key = ""
    · left
      simp [insertUserMetric, hr, hk]
    · cases g <;> cases p <;> cases hl : lookupEntity ds.usermetricentity metric.Header.Key <;>
        simp [insertUserMetric, datastoreGet, datastorePut, hr, hk, hl, isErrFieldMismatch,
          mapAPItoDBUserMetric] <;>
        split <;> simp_all

/-- Replace either leaves the datastore as it is and reports an error, or writes the
projection of the request. -/
theorem updateUserMetric_cases (M : CommonHeaderMappers) (f : Faults) (now : Time)
    (ds : Datastore) (request : Request) :
    ((updateUserMetric M f now ds request).1 = ds ∧
      ∀ st e, (updateUserMetric M f now ds request).2 ≠ .WriteHeaderAndEntity st e) ∨
    (∃ metric stored, request.ReadEntity = .ok metric ∧ metric.Header.Key ≠ "" ∧
      stored =
        { mapAPItoDBUserMetric M metric UserMetricEntity.new with
          Header := { (mapAPItoDBUserMetric M metric UserMetricEntity.new).Header with
                      LastChanged := now } } ∧
      updateUserMetric M f now ds request =
        ({ ds with usermetricentity := putEntity ds.usermetricentity metric.Header.Key stored },
          .WriteHeaderAndEntity StatusNoContent (.text ""))) := by
  obtain ⟨g, p, c, ga⟩ := f
  cases hr : request.ReadEntity with
  | error msg =>
    left
    simp [updateUserMetric, hr]
  | ok metric =>
    by_cases hk : metric.Header.Key = ""
    · left
      simp [updateUserMetric, hr, hk]
    · cases p <;> simp [updateUserMetric, datastorePut, hr, hk]

/-- Fetch-by-key of a key holding a Record, the read not failing, answers 200 with the
projection of the Record and the key. -/
theorem getUserMetricByKey_found (M : CommonHeaderMappers) (g : Faults) (ds : Datastore)
    (request : Request) (e : UserMetricEntity) (hk : request.key ≠ "")
    (hread : ∀ msg, g.get ≠ .backend msg)
    (hl : lookupEntity ds.usermetricentity request.key = some e) :
    getUserMetricByKey M g ds request =
      .WriteHeaderAndEntity StatusOK (.metric
        { Header := { M.mapDBtoAPICommonHeader e.Header CommonAPIHeaderV1.zero with
                      Key := request.key }
          MetricXML := e.MetricXML
          CreatorNick := e.CreatorNick
          CreatorEmail := e.CreatorEmail }) := by
  obtain ⟨gg, p, c, ga⟩ := g
  cases gg with
  | backend msg => exact absurd rfl (hread msg)
  | ok =>
    simp [getUserMetricByKey, datastoreGet, hk, hl, isErrFieldMismatch, mapDBtoAPIUserMetric,
      UserMetricAPIv1.new]
  | fieldMismatch =>
    simp [getUserMetricByKey, datastoreGet, hk, hl, isErrFieldMismatch, mapDBtoAPIUserMetric,
      UserMetricAPIv1.new]

/-! ## Create -/

/-- Create on a key holding no Record, the read not failing otherwise, answers 409 and writes
nothing. -/
theorem insertUserMetric_no_such_entity (M : CommonHeaderMappers) (f : Faults) (now : Time)
    (ds : Datastore) (request : Request) (metric : UserMetricAPIv1)
    (hr : request.ReadEntity = .ok metric) (hk : metric.Header.Key ≠ "")
    (hread : ∀ msg, f.get ≠ .backend msg)
    (hl : lookupEntity ds.usermetricentity metric.Header.Key = none) :
    insertUserMetric M f now ds request =
      (ds, .addPlainTextError StatusConflict "datastore: no such entity") := by
  obtain ⟨g, p, c, ga⟩ := f
  cases g with
  | backend msg => exact absurd rfl (hread msg)
  | ok => simp [insertUserMetric, datastoreGet, hr, hk, hl, isErrFieldMismatch, errorText]
  | fieldMismatch =>
    simp [insertUserMetric, datastoreGet, hr, hk, hl, isErrFieldMismatch, errorText]

/-- C1 (the code at the failing inputs): create of m1 on a store holding no Record answers
409 and writes nothing, so a second create of m1 answers 409 again and not 201 then 409;
create of m1 on a store that holds a Record at m1 answers 201 and overwrites the Record. -/
theorem insertUserMetric_duplicate_check_inverted :
    insertUserMetric verbatimMappers Faults.none 10 emptyStore sampleRequest =
      (emptyStore, .addPlainTextError StatusConflict "datastore: no such entity") ∧
    insertUserMetric verbatimMappers Faults.none 11
        (insertUserMetric verbatimMappers Faults.none 10 emptyStore sampleRequest).1
        sampleRequest =
      (emptyStore, .addPlainTextError StatusConflict "datastore: no such entity") ∧
    insertUserMetric verbatimMappers Faults.none 10 sampleStore sampleRequest =
      ({ usermetricentity :=
           [("m1", { Header := { CreatorId := "c1", LastChanged := 10, Curated := true,
                                 Deleted := false, Other := "en" }
                     MetricXML := "<x/>"
                     CreatorNick := "nick"
                     CreatorEmail := "nick@example.org" })]
         curatorentity := ["c1"] },
        .WriteHeaderAndEntity StatusCreated (.text "m1")) := by
  refine ⟨?_, ?_, ?_⟩ <;> decide

/-- C2: whenever create answers 201 with the key, the Record stored at the key has
`Deleted = false`, `LastChanged = now` and `Curated = true` exactly when the curator count for
its `CreatorId` succeeded with count 1; a following fetch-by-key of the key (its read not
failing) answers 200 with the projection of that Record, and the fetched Record shows the same
three values when the header mapper carries them over. -/
theorem insertUserMetric_then_getUserMetricByKey (M : CommonHeaderMappers) (f g : Faults)
    (now : Time) (ds : Datastore) (request fetch : Request) (key : String)
    (hcreated : (insertUserMetric M f now ds request).2 =
      .WriteHeaderAndEntity StatusCreated (.text key))
    (hfetch : fetch.key = key)
    (hread : ∀ msg, g.get ≠ .backend msg)
    (hDeleted : ∀ d a, (M.mapDBtoAPICommonHeader d a).Deleted = d.Deleted)
    (hCurated : ∀ d a, (M.mapDBtoAPICommonHeader d a).Curated = d.Curated)
    (hLastChanged : ∀ d a, (M.mapDBtoAPICommonHeader d a).LastChanged = d.LastChanged) :
    ∃ stored api,
      lookupEntity (insertUserMetric M f now ds request).1.usermetricentity key = some stored ∧
      stored.Header.Deleted = false ∧
      stored.Header.LastChanged = now ∧
      (stored.Header.Curated = true ↔
        curatorCount f.count ds stored.Header.CreatorId = (1, none)) ∧
      getUserMetricByKey M g (insertUserMetric M f now ds request).1 fetch =
        .WriteHeaderAndEntity StatusOK (.metric api) ∧
      api.Header.Key = key ∧
      api.MetricXML = stored.MetricXML ∧
      api.Header.Deleted = false ∧
      api.Header.LastChanged = now ∧
      (api.Header.Curated = true ↔
        curatorCount f.count ds stored.Header.CreatorId = (1, none)) := by
  rcases insertUserMetric_cases M f now ds request with
    ⟨_, hno⟩ | ⟨metric, e0, stored, hr, hk, hl, hstored, heq⟩
  · exact absurd hcreated (hno _ _)
  · rw [heq] at hcreated
    have hkey : metric.Header.Key = key := by
      simpa using hcreated
    subst hkey
    have hcount : ∀ id : String,
        ((curatorCount f.count ds id).1 = 1 ↔ curatorCount f.count ds id = (1, none)) := by
      intro id
      cases hc : f.count <;> simp [curatorCount, hc]
    have hlook : lookupEntity (insertUserMetric M f now ds request).1.usermetricentity
        metric.Header.Key = some stored := by
      rw [heq]
      exact lookupEntity_putEntity_same _ _ _
    have hget := getUserMetricByKey_found M g (insertUserMetric M f now ds request).1 fetch
      stored (by rw [hfetch]; exact hk) hread (by rw [hfetch]; exact hlook)
    have hcur : (stored.Header.Curated = true ↔
        curatorCount f.count ds stored.Header.CreatorId = (1, none)) := by
      rw [hstored]
      simpa using hcount _
    refine ⟨stored, _, hlook, ?_, ?_, hcur, hget, ?_, rfl, ?_, ?_, ?_⟩
    · rw [hstored]
    · rw [hstored]
    · exact hfetch
    · simp [hDeleted, hstored]
    · simp [hLastChanged, hstored]
    · simpa [hCurated] using hcur

/-- Witness of C2: create of m1 over the Record stored at m1, then fetch of m1. -/
theorem insertUserMetric_then_getUserMetricByKey_witness :
    (insertUserMetric verbatimMappers Faults.none 10 sampleStore sampleRequest).2 =
        .WriteHeaderAndEntity StatusCreated (.text "m1") ∧
    ∃ stored api,
      lookupEntity
        (insertUserMetric verbatimMappers Faults.none 10 sampleStore
          sampleRequest).1.usermetricentity "m1" = some stored ∧
      stored.Header.Deleted = false ∧
      stored.Header.LastChanged = 10 ∧
      (stored.Header.Curated = true ↔
        curatorCount Faults.none.count sampleStore stored.Header.CreatorId = (1, none)) ∧
      getUserMetricByKey verbatimMappers Faults.none
          (insertUserMetric verbatimMappers Faults.none 10 sampleStore sampleRequest).1
          sampleRequest =
        .WriteHeaderAndEntity StatusOK (.metric api) ∧
      api.Header.Key = "m1" ∧
      api.MetricXML = stored.MetricXML ∧
      api.Header.Deleted = false ∧
      api.Header.LastChanged = 10 ∧
      (api.Header.Curated = true ↔
        curatorCount Faults.none.count sampleStore stored.Header.CreatorId = (1, none)) :=
  ⟨by decide,
    insertUserMetric_then_getUserMetricByKey verbatimMappers Faults.none Faults.none 10
      sampleStore sampleRequest sampleRequest "m1" (by decide) rfl (by intro msg; simp [Faults.none])
      (fun _ _ => rfl) (fun _ _ => rfl) (fun _ _ => rfl)⟩

/-! ## Soft-delete and set-curated -/

/-- C3: on a store holding a Record at the key, a soft-delete that answers 204 has made one
write, of the Record with `Deleted = true`, an empty payload and `LastChanged = now`, its
`Curated` flag, creator nick and creator email (and the other header fields) unchanged; a
following fetch-by-key (its read not failing) answers 200 with an empty payload, and with
`Deleted = true` when the header mapper carries the flag over. -/
theorem deleteUserMetricByKey_then_getUserMetricByKey (M : CommonHeaderMappers)
    (f g : Faults) (now : Time) (ds : Datastore) (request fetch : Request)
    (e0 : UserMetricEntity)
    (hl : lookupEntity ds.usermetricentity request.key = some e0)
    (hok : (deleteUserMetricByKey f now ds request).2 =
      .WriteHeaderAndEntity StatusNoContent (.text ""))
    (hfetch : fetch.key = request.key)
    (hread : ∀ msg, g.get ≠ .backend msg)
    (hDeleted : ∀ d a, (M.mapDBtoAPICommonHeader d a).Deleted = d.Deleted) :
    ∃ stored api,
      (deleteUserMetricByKey f now ds request).1 =
        { ds with usermetricentity := putEntity ds.usermetricentity request.key stored } ∧
      lookupEntity (deleteUserMetricByKey f now ds request).1.usermetricentity request.key =
        some stored ∧
      stored.Header.Deleted = true ∧
      stored.MetricXML = "" ∧
      stored.Header.LastChanged = now ∧
      stored.Header.Curated = e0.Header.Curated ∧
      stored.CreatorNick = e0.CreatorNick ∧
      stored.CreatorEmail = e0.CreatorEmail ∧
      stored.Header.CreatorId = e0.Header.CreatorId ∧
      stored.Header.Other = e0.Header.Other ∧
      getUserMetricByKey M g (deleteUserMetricByKey f now ds request).1 fetch =
        .WriteHeaderAndEntity StatusOK (.metric api) ∧
      api.Header.Deleted = true ∧
      api.MetricXML = "" := by
  rcases deleteUserMetricByKey_cases f now ds request with
    ⟨_, hno⟩ | ⟨e1, stored, hl1, hk, hstored, heq⟩
  · exact absurd hok (hno _ _)
  · have he : e1 = e0 := by
      rw [hl] at hl1
      exact (Option.some.inj hl1).symm
    subst he
    have hstate : (deleteUserMetricByKey f now ds request).1 =
        { ds with usermetricentity := putEntity ds.usermetricentity request.key stored } := by
      rw [heq]
    have hlook : lookupEntity (deleteUserMetricByKey f now ds request).1.usermetricentity
        request.key = some stored := by
      rw [hstate]
      exact lookupEntity_putEntity_same _ _ _
    have hget := getUserMetricByKey_found M g (deleteUserMetricByKey f now ds request).1 fetch
      stored (by rw [hfetch]; exact hk) hread (by rw [hfetch]; exact hlook)
    refine ⟨stored, _, hstate, hlook, ?_, ?_, ?_, ?_, ?_, ?_, ?_, ?_, hget, ?_, ?_⟩
    all_goals simp [hstored, hDeleted]

/-- Witness of C3: soft-delete of the live Record stored at m1, then fetch of m1. -/
theorem deleteUserMetricByKey_then_getUserMetricByKey_witness :
    lookupEntity sampleStore.usermetricentity sampleRequest.key = some sampleEntity ∧
    (deleteUserMetricByKey Faults.none 20 sampleStore sampleRequest).2 =
      .WriteHeaderAndEntity StatusNoContent (.text "") ∧
    ∃ stored api,
      (deleteUserMetricByKey Faults.none 20 sampleStore sampleRequest).1 =
        { sampleStore with
          usermetricentity := putEntity sampleStore.usermetricentity sampleRequest.key stored } ∧
      lookupEntity (deleteUserMetricByKey Faults.none 20 sampleStore
        sampleRequest).1.usermetricentity sampleRequest.key = some stored ∧
      stored.Header.Deleted = true ∧
      stored.MetricXML = "" ∧
      stored.Header.LastChanged = 20 ∧
      stored.Header.Curated = sampleEntity.Header.Curated ∧
      stored.CreatorNick = sampleEntity.CreatorNick ∧
      stored.CreatorEmail = sampleEntity.CreatorEmail ∧
      stored.Header.CreatorId = sampleEntity.Header.CreatorId ∧
      stored.Header.Other = sampleEntity.Header.Other ∧
      getUserMetricByKey verbatimMappers Faults.none
          (deleteUserMetricByKey Faults.none 20 sampleStore sampleRequest).1 sampleRequest =
        .WriteHeaderAndEntity StatusOK (.metric api) ∧
      api.Header.Deleted = true ∧
      api.MetricXML = "" :=
  ⟨by decide, by decide,
    deleteUserMetricByKey_then_getUserMetricByKey verbatimMappers Faults.none Faults.none 20
      sampleStore sampleRequest sampleRequest sampleEntity (by decide) (by decide) rfl
      (by intro msg; simp [Faults.none]) (fun _ _ => rfl)⟩

/-- C6: on a store holding a Record at the key, a set-curated whose `newStatus` parses to `b`
and that answers 204 has made one write, of the Record with `Curated = b` and
`LastChanged = now`, its `Deleted` flag, payload and attribution (and the other header fields)
unchanged; a following fetch-by-key (its read not failing) answers 200 with the unchanged
payload, and with `Curated = b` when the header mapper carries the flag over. -/
theorem curateUserMetricByKey_then_getUserMetricByKey (M : CommonHeaderMappers)
    (f g : Faults) (now : Time) (ds : Datastore) (request fetch : Request)
    (e0 : UserMetricEntity) (b : Bool)
    (hl : lookupEntity ds.usermetricentity request.key = some e0)
    (hb : ParseBool request.newStatus = .ok b)
    (hok : (curateUserMetricByKey f now ds request).2 =
      .WriteHeaderAndEntity StatusNoContent (.text ""))
    (hfetch : fetch.key = request.key)
    (hread : ∀ msg, g.get ≠ .backend msg)
    (hCurated : ∀ d a, (M.mapDBtoAPICommonHeader d a).Curated = d.Curated) :
    ∃ stored api,
      (curateUserMetricByKey f now ds request).1 =
        { ds with usermetricentity := putEntity ds.usermetricentity request.key stored } ∧
      lookupEntity (curateUserMetricByKey f now ds request).1.usermetricentity request.key =
        some stored ∧
      stored.Header.Curated = b ∧
      stored.Header.LastChanged = now ∧
      stored.Header.Deleted = e0.Header.Deleted ∧
      stored.MetricXML = e0.MetricXML ∧
      stored.CreatorNick = e0.CreatorNick ∧
      stored.CreatorEmail = e0.CreatorEmail ∧
      stored.Header.CreatorId = e0.Header.CreatorId ∧
      stored.Header.Other = e0.Header.Other ∧
      getUserMetricByKey M g (curateUserMetricByKey f now ds request).1 fetch =
        .WriteHeaderAndEntity StatusOK (.metric api) ∧
      api.Header.Curated = b ∧
      api.MetricXML = e0.MetricXML := by
  rcases curateUserMetricByKey_cases f now ds request with
    ⟨_, hno⟩ | ⟨e1, b1, stored, hb1, hl1, hk, hstored, heq⟩
  · exact absurd hok (hno _ _)
  · have he : e1 = e0 := by
      rw [hl] at hl1
      exact (Option.some.inj hl1).symm
    have hbb : b1 = b := by
      rw [hb] at hb1
      exact (Except.ok.inj hb1).symm
    subst he
    subst hbb
    have hstate : (curateUserMetricByKey f now ds request).1 =
        { ds with usermetricentity := putEntity ds.usermetricentity request.key stored } := by
      rw [heq]
    have hlook : lookupEntity (curateUserMetricByKey f now ds request).1.usermetricentity
        request.key = some stored := by
      rw [hstate]
      exact lookupEntity_putEntity_same _ _ _
    have hget := getUserMetricByKey_found M g (curateUserMetricByKey f now ds request).1 fetch
      stored (by rw [hfetch]; exact hk) hread (by rw [hfetch]; exact hlook)
    refine ⟨stored, _, hstate, hlook, ?_, ?_, ?_, ?_, ?_, ?_, ?_, ?_, hget, ?_, ?_⟩
    all_goals simp [hstored, hCurated]

/-- Witness of C6: set-curated(true) of the live, uncurated Record stored at m1. -/
theorem curateUserMetricByKey_then_getUserMetricByKey_witness :
    lookupEntity sampleStore.usermetricentity sampleRequest.key = some sampleEntity ∧
    ParseBool sampleRequest.newStatus = .ok true ∧
    (curateUserMetricByKey Faults.none 20 sampleStore sampleRequest).2 =
      .WriteHeaderAndEntity StatusNoContent (.text "") ∧
    ∃ stored api,
      (curateUserMetricByKey Faults.none 20 sampleStore sampleRequest).1 =
        { sampleStore with
          usermetricentity := putEntity sampleStore.usermetricentity sampleRequest.key stored } ∧
      lookupEntity (curateUserMetricByKey Faults.none 20 sampleStore
        sampleRequest).1.usermetricentity sampleRequest.key = some stored ∧
      stored.Header.Curated = true ∧
      stored.Header.LastChanged = 20 ∧
      stored.Header.Deleted = sampleEntity.Header.Deleted ∧
      stored.MetricXML = sampleEntity.MetricXML ∧
      stored.CreatorNick = sampleEntity.CreatorNick ∧
      stored.CreatorEmail = sampleEntity.CreatorEmail ∧
      stored.Header.CreatorId = sampleEntity.Header.CreatorId ∧
      stored.Header.Other = sampleEntity.Header.Other ∧
      getUserMetricByKey verbatimMappers Faults.none
          (curateUserMetricByKey Faults.none 20 sampleStore sampleRequest).1 sampleRequest =
        .WriteHeaderAndEntity StatusOK (.metric api) ∧
      api.Header.Curated = true ∧
      api.MetricXML = sampleEntity.MetricXML :=
  ⟨by decide, rfl, by decide,
    curateUserMetricByKey_then_getUserMetricByKey verbatimMappers Faults.none Faults.none 20
      sampleStore sampleRequest sampleRequest sampleEntity true (by decide) rfl
      (by decide) rfl (by intro msg; simp [Faults.none]) (fun _ _ => rfl)⟩

/-- C10: when no Record is stored at the key, soft-delete and set-curated leave the datastore
as it is (no Record appears at the key, the other keys keep their Records) and do not answer
with a success; when the key is not empty and the read reports no-such-entity (and, for
set-curated, `newStatus` parses) the answer is the common error processing of that error. -/
theorem changeUserMetricByKey_missing_key (f : Faults) (now : Time) (ds : Datastore)
    (request : Request)
    (hmissing : lookupEntity ds.usermetricentity request.key = none) :
    (deleteUserMetricByKey f now ds request).1 = ds ∧
    (curateUserMetricByKey f now ds request).1 = ds ∧
    (∀ st e, (deleteUserMetricByKey f now ds request).2 ≠ .WriteHeaderAndEntity st e) ∧
    (∀ st e, (curateUserMetricByKey f now ds request).2 ≠ .WriteHeaderAndEntity st e) ∧
    lookupEntity (deleteUserMetricByKey f now ds request).1.usermetricentity request.key =
      none ∧
    lookupEntity (curateUserMetricByKey f now ds request).1.usermetricentity request.key =
      none ∧
    (request.key ≠ "" →
      (datastoreGet f.get ds request.key UserMetricEntity.new).1 = some .ErrNoSuchEntity →
      (deleteUserMetricByKey f now ds request).2 =
          .commonResponseErrorProcessing (some .ErrNoSuchEntity) ∧
        ∀ b, ParseBool request.newStatus = .ok b →
          (curateUserMetricByKey f now ds request).2 =
            .commonResponseErrorProcessing (some .ErrNoSuchEntity)) := by
  have hd : (deleteUserMetricByKey f now ds request).1 = ds ∧
      ∀ st e, (deleteUserMetricByKey f now ds request).2 ≠ .WriteHeaderAndEntity st e := by
    rcases deleteUserMetricByKey_cases f now ds request with h | ⟨e1, _, hl1, _⟩
    · exact h
    · rw [hmissing] at hl1
      cases hl1
  have hc : (curateUserMetricByKey f now ds request).1 = ds ∧
      ∀ st e, (curateUserMetricByKey f now ds request).2 ≠ .WriteHeaderAndEntity st e := by
    rcases curateUserMetricByKey_cases f now ds request with h | ⟨e1, _, _, _, hl1, _⟩
    · exact h
    · rw [hmissing] at hl1
      cases hl1
  refine ⟨hd.1, hc.1, hd.2, hc.2, ?_, ?_, ?_⟩
  · rw [hd.1]
    exact hmissing
  · rw [hc.1]
    exact hmissing
  · intro hk hget
    constructor
    · simp [deleteUserMetricByKey, changeUserMetricByKey, hk, hget, isErrFieldMismatch]
    · intro b hb
      simp [curateUserMetricByKey, changeUserMetricByKey, hk, hget, hb, isErrFieldMismatch]

/-- Witness of C10: soft-delete and set-curated of m1 on a store holding no Record. -/
theorem changeUserMetricByKey_missing_key_witness :
    lookupEntity emptyStore.usermetricentity sampleRequest.key = none ∧
    (deleteUserMetricByKey Faults.none 20 emptyStore sampleRequest).1 = emptyStore ∧
    (curateUserMetricByKey Faults.none 20 emptyStore sampleRequest).1 = emptyStore ∧
    (deleteUserMetricByKey Faults.none 20 emptyStore sampleRequest).2 =
      .commonResponseErrorProcessing (some .ErrNoSuchEntity) ∧
    (curateUserMetricByKey Faults.none 20 emptyStore sampleRequest).2 =
      .commonResponseErrorProcessing (some .ErrNoSuchEntity) :=
  have h := changeUserMetricByKey_missing_key Faults.none 20 emptyStore sampleRequest
    (by decide)
  ⟨by decide, h.1, h.2.1, (h.2.2.2.2.2.2 (by decide) (by decide)).1,
    (h.2.2.2.2.2.2 (by decide) (by decide)).2 true rfl⟩

/-! ## Replace -/

/-- C8: replace with a non-empty key, the write succeeding, answers 204 whatever the store
holds, and the Record stored at the key afterwards is the projection of the request onto a
fresh entity with `LastChanged = now`: payload and attribution are the caller's, `Curated` and
`Deleted` are the caller's when the header mapper carries them over, and the stored Record is
the same on every other store, so nothing of a previous Record survives. -/
theorem updateUserMetric_blind_overwrite (M : CommonHeaderMappers) (f : Faults) (now : Time)
    (ds : Datastore) (request : Request) (metric : UserMetricAPIv1)
    (hr : request.ReadEntity = .ok metric) (hk : metric.Header.Key ≠ "")
    (hput : f.put = none)
    (hCurated : ∀ a d, (M.mapAPItoDBCommonHeader a d).Curated = a.Curated)
    (hDeleted : ∀ a d, (M.mapAPItoDBCommonHeader a d).Deleted = a.Deleted) :
    ∃ stored,
      stored =
        { mapAPItoDBUserMetric M metric UserMetricEntity.new with
          Header := { (mapAPItoDBUserMetric M metric UserMetricEntity.new).Header with
                      LastChanged := now } } ∧
      updateUserMetric M f now ds request =
        ({ ds with usermetricentity := putEntity ds.usermetricentity metric.Header.Key stored },
          .WriteHeaderAndEntity StatusNoContent (.text "")) ∧
      lookupEntity (updateUserMetric M f now ds request).1.usermetricentity metric.Header.Key =
        some stored ∧
      (∀ ds2 : Datastore,
        lookupEntity (updateUserMetric M f now ds2 request).1.usermetricentity
          metric.Header.Key = some stored) ∧
      stored.Header.LastChanged = now ∧
      stored.MetricXML = metric.MetricXML ∧
      stored.CreatorNick = metric.CreatorNick ∧
      stored.CreatorEmail = metric.CreatorEmail ∧
      stored.Header.Curated = metric.Header.Curated ∧
      stored.Header.Deleted = metric.Header.Deleted := by
  obtain ⟨stored, hstored⟩ : ∃ stored : UserMetricEntity, stored =
      { mapAPItoDBUserMetric M metric UserMetricEntity.new with
        Header := { (mapAPItoDBUserMetric M metric UserMetricEntity.new).Header with
                    LastChanged := now } } := ⟨_, rfl⟩
  have heq : ∀ ds2 : Datastore, updateUserMetric M f now ds2 request =
      ({ ds2 with usermetricentity := putEntity ds2.usermetricentity metric.Header.Key stored },
        .WriteHeaderAndEntity StatusNoContent (.text "")) := by
    intro ds2
    rw [hstored]
    simp [updateUserMetric, datastorePut, hr, hk, hput]
  have hlook : ∀ ds2 : Datastore,
      lookupEntity (updateUserMetric M f now ds2 request).1.usermetricentity
        metric.Header.Key = some stored := by
    intro ds2
    rw [heq ds2]
    exact lookupEntity_putEntity_same _ _ _
  refine ⟨stored, hstored, heq ds, hlook ds, hlook, ?_, ?_, ?_, ?_, ?_, ?_⟩
  all_goals simp [hstored, mapAPItoDBUserMetric, hCurated, hDeleted]

/-- Witness of C8: replace of m1 over the live Record stored at m1 by a request that carries
`Curated = true` and `Deleted = true`. -/
theorem updateUserMetric_blind_overwrite_witness :
    sampleRequest.ReadEntity = .ok sampleMetric ∧ sampleMetric.Header.Key ≠ "" ∧
    Faults.none.put = none ∧
    ∃ stored,
      stored =
        { mapAPItoDBUserMetric verbatimMappers sampleMetric UserMetricEntity.new with
          Header :=
            { (mapAPItoDBUserMetric verbatimMappers sampleMetric UserMetricEntity.new).Header with
              LastChanged := 20 } } ∧
      updateUserMetric verbatimMappers Faults.none 20 sampleStore sampleRequest =
        ({ sampleStore with
            usermetricentity :=
              putEntity sampleStore.usermetricentity sampleMetric.Header.Key stored },
          .WriteHeaderAndEntity StatusNoContent (.text "")) ∧
      lookupEntity (updateUserMetric verbatimMappers Faults.none 20 sampleStore
        sampleRequest).1.usermetricentity sampleMetric.Header.Key = some stored ∧
      (∀ ds2 : Datastore,
        lookupEntity (updateUserMetric verbatimMappers Faults.none 20 ds2
          sampleRequest).1.usermetricentity sampleMetric.Header.Key = some stored) ∧
      stored.Header.LastChanged = 20 ∧
      stored.MetricXML = sampleMetric.MetricXML ∧
      stored.CreatorNick = sampleMetric.CreatorNick ∧
      stored.CreatorEmail = sampleMetric.CreatorEmail ∧
      stored.Header.Curated = sampleMetric.Header.Curated ∧
      stored.Header.Deleted = sampleMetric.Header.Deleted :=
  ⟨rfl, by decide, rfl,
    updateUserMetric_blind_overwrite verbatimMappers Faults.none 20 sampleStore sampleRequest
      sampleMetric rfl (by decide) rfl (fun _ _ => rfl) (fun _ _ => rfl)⟩

/-! ## Projection -/

/-- C9: projecting an API Record to the stored form and back returns its payload, creator nick
and creator email; the header returned is the header sent through the two common header
mappers, so it stands in any relation to the original header (equality, or agreement on all
fields but `LastChanged`) in which the common header mappers leave it. -/
theorem mapAPItoDB_mapDBtoAPI_roundtrip (M : CommonHeaderMappers) (r : UserMetricAPIv1)
    (db : UserMetricEntity) (api : UserMetricAPIv1)
    (R : CommonAPIHeaderV1 → CommonAPIHeaderV1 → Prop)
    (hinverse : R (M.mapDBtoAPICommonHeader (M.mapAPItoDBCommonHeader r.Header db.Header)
      api.Header) r.Header) :
    (mapDBtoAPIUserMetric M (mapAPItoDBUserMetric M r db) api).MetricXML = r.MetricXML ∧
    (mapDBtoAPIUserMetric M (mapAPItoDBUserMetric M r db) api).CreatorNick = r.CreatorNick ∧
    (mapDBtoAPIUserMetric M (mapAPItoDBUserMetric M r db) api).CreatorEmail = r.CreatorEmail ∧
    (mapDBtoAPIUserMetric M (mapAPItoDBUserMetric M r db) api).Header =
      M.mapDBtoAPICommonHeader (M.mapAPItoDBCommonHeader r.Header db.Header) api.Header ∧
    R (mapDBtoAPIUserMetric M (mapAPItoDBUserMetric M r db) api).Header r.Header :=
  ⟨rfl, rfl, rfl, rfl, hinverse⟩

/-- Witness of C9: with the verbatim header mappers and the key already set in the
destination, the round trip of `sampleMetric` is the identity. -/
theorem mapAPItoDB_mapDBtoAPI_roundtrip_witness :
    (mapDBtoAPIUserMetric verbatimMappers
      (mapAPItoDBUserMetric verbatimMappers sampleMetric UserMetricEntity.new)
      { UserMetricAPIv1.new with
        Header := { UserMetricAPIv1.new.Header with Key := "m1" } }).MetricXML =
        sampleMetric.MetricXML ∧
    (mapDBtoAPIUserMetric verbatimMappers
      (mapAPItoDBUserMetric verbatimMappers sampleMetric UserMetricEntity.new)
      { UserMetricAPIv1.new with
        Header := { UserMetricAPIv1.new.Header with Key := "m1" } }).CreatorNick =
        sampleMetric.CreatorNick ∧
    (mapDBtoAPIUserMetric verbatimMappers
      (mapAPItoDBUserMetric verbatimMappers sampleMetric UserMetricEntity.new)
      { UserMetricAPIv1.new with
        Header := { UserMetricAPIv1.new.Header with Key := "m1" } }).CreatorEmail =
        sampleMetric.CreatorEmail ∧
    (mapDBtoAPIUserMetric verbatimMappers
      (mapAPItoDBUserMetric verbatimMappers sampleMetric UserMetricEntity.new)
      { UserMetricAPIv1.new with
        Header := { UserMetricAPIv1.new.Header with Key := "m1" } }).Header =
        sampleMetric.Header := by
  have h := mapAPItoDB_mapDBtoAPI_roundtrip verbatimMappers sampleMetric UserMetricEntity.new
    { UserMetricAPIv1.new with Header := { UserMetricAPIv1.new.Header with Key := "m1" } }
    Eq rfl
  exact ⟨h.1, h.2.1, h.2.2.1, h.2.2.2.2⟩

/-! ## Listing -/

theorem headerOrder_total (a b : String × UserMetricEntity) :
    headerOrder a b ∨ headerOrder b a := by
  unfold headerOrder
  rcases lt_trichotomy a.2.Header.LastChanged b.2.Header.LastChanged with h | h | h
  · exact Or.inl (Or.inl h)
  · rcases le_total a.1.toList b.1.toList with hk | hk
    · exact Or.inl (Or.inr ⟨h, hk⟩)
    · exact Or.inr (Or.inr ⟨h.symm, hk⟩)
  · exact Or.inr (Or.inl h)

theorem headerOrder_trans (a b c : String × UserMetricEntity) (hab : headerOrder a b)
    (hbc : headerOrder b c) : headerOrder a c := by
  unfold headerOrder at *
  rcases hab with h1 | ⟨h1, k1⟩ <;> rcases hbc with h2 | ⟨h2, k2⟩
  · exact Or.inl (lt_trans h1 h2)
  · exact Or.inl (h2 ▸ h1)
  · exact Or.inl (h1 ▸ h2)
  · exact Or.inr ⟨h1.trans h2, le_trans k1 k2⟩

theorem headerOrder_le (a b : String × UserMetricEntity) (h : headerOrder a b) :
    a.2.Header.LastChanged ≤ b.2.Header.LastChanged := by
  rcases h with h | ⟨h, _⟩
  · exact le_of_lt h
  · exact le_of_eq h

/-- The selection of the listing query: at most `limit` Records, all stored and not older
than `date`, in ascending `LastChanged` order, and the Records left out are the youngest of
those that qualify. -/
theorem queryHeadersSince_spec (ds : Datastore) (date : Time) (limit : Nat) :
    (queryHeadersSince ds date limit).length =
      min limit (ds.usermetricentity.filter
        (fun p => decide (date ≤ p.2.Header.LastChanged))).length ∧
    (∀ r ∈ queryHeadersSince ds date limit,
      r ∈ ds.usermetricentity ∧ date ≤ r.2.Header.LastChanged) ∧
    List.Sorted (fun a b : String × UserMetricEntity =>
      a.2.Header.LastChanged ≤ b.2.Header.LastChanged) (queryHeadersSince ds date limit) ∧
    ∃ rest, List.Perm (queryHeadersSince ds date limit ++ rest)
        (ds.usermetricentity.filter (fun p => decide (date ≤ p.2.Header.LastChanged))) ∧
      ∀ x ∈ queryHeadersSince ds date limit, ∀ y ∈ rest,
        x.2.Header.LastChanged ≤ y.2.Header.LastChanged := by
  haveI : IsTotal (String × UserMetricEntity) headerOrder := ⟨headerOrder_total⟩
  haveI : IsTrans (String × UserMetricEntity) headerOrder := ⟨headerOrder_trans⟩
  have hsorted := List.sorted_insertionSort headerOrder
    (ds.usermetricentity.filter (fun p => decide (date ≤ p.2.Header.LastChanged)))
  have hperm := List.perm_insertionSort headerOrder
    (ds.usermetricentity.filter (fun p => decide (date ≤ p.2.Header.LastChanged)))
  have hle : List.Pairwise (fun a b : String × UserMetricEntity =>
      a.2.Header.LastChanged ≤ b.2.Header.LastChanged)
      (List.insertionSort headerOrder
        (ds.usermetricentity.filter (fun p => decide (date ≤ p.2.Header.LastChanged)))) :=
    List.Pairwise.imp (fun {a b} h => headerOrder_le a b h) hsorted
  refine ⟨?_, ?_, ?_, ?_⟩
  · unfold queryHeadersSince
    rw [List.length_take, hperm.length_eq]
  · intro r hr
    have hmem := hperm.subset (List.mem_of_mem_take hr)
    have := List.mem_filter.mp hmem
    exact ⟨this.1, by simpa using this.2⟩
  · exact List.Pairwise.sublist (List.take_sublist _ _) hle
  · refine ⟨(List.insertionSort headerOrder (ds.usermetricentity.filter
      (fun p => decide (date ≤ p.2.Header.LastChanged)))).drop limit, ?_, ?_⟩
    · unfold queryHeadersSince
      rw [List.take_append_drop]
      exact hperm
    · intro x hx y hy
      have hsplit := hle
      rw [← List.take_append_drop limit (List.insertionSort headerOrder
        (ds.usermetricentity.filter (fun p => decide (date ≤ p.2.Header.LastChanged))))]
        at hsplit
      exact (List.pairwise_append.mp hsplit).2.2 x hx y hy

/-- C7: the listing since `t` (the zero instant when `dateFrom` is absent), its read not
failing, answers 200 with at most 200 entries, exactly `min 200 n` when `n` Records qualify;
each entry is the header projection of a stored Record, carries that Record's store key, and,
the header mapper carrying `LastChanged` over, has `LastChanged ≥ t`; the entries are in
non-decreasing `LastChanged` order; the qualifying Records that are left out are not older
than any entry. -/
theorem getUserMetricHeader_listing (M : CommonHeaderMappers)
    (parseRFC3339 : String → Except String Time) (f : Faults) (ds : Datastore)
    (request : Request) (t : Time)
    (hdate : dateFromOf parseRFC3339 request = .ok t)
    (hread : ∀ msg, f.getAll ≠ .backend msg)
    (hLastChanged : ∀ d a, (M.mapDBtoAPICommonHeader d a).LastChanged = d.LastChanged) :
    (request.dateFrom = "" → t = zeroTime) ∧
    ∃ entries rest,
      getUserMetricHeader M parseRFC3339 f ds request =
        .WriteHeaderAndEntity StatusOK (.headerList entries) ∧
      entries.length ≤ 200 ∧
      entries.length = min 200 (ds.usermetricentity.filter
        (fun p => decide (t ≤ p.2.Header.LastChanged))).length ∧
      (∀ x ∈ entries, t ≤ x.Header.LastChanged) ∧
      List.Sorted (fun a b : UserMetricAPIv1HeaderOnly =>
        a.Header.LastChanged ≤ b.Header.LastChanged) entries ∧
      List.Forall₂ (fun (x : UserMetricAPIv1HeaderOnly) (r : String × UserMetricEntity) =>
          r ∈ ds.usermetricentity ∧ x.Header.Key = r.1 ∧
          x.Header = { M.mapDBtoAPICommonHeader r.2.Header CommonAPIHeaderV1.zero with
                       Key := r.1 })
        entries (queryHeadersSince ds t 200) ∧
      List.Perm (queryHeadersSince ds t 200 ++ rest)
        (ds.usermetricentity.filter (fun p => decide (t ≤ p.2.Header.LastChanged))) ∧
      (∀ x ∈ entries, ∀ y ∈ rest, x.Header.LastChanged ≤ y.2.Header.LastChanged) := by
  obtain ⟨hlen, hmem, hsorted, rest, hperm, hrest⟩ := queryHeadersSince_spec ds t 200
  have hproj : ∀ p : String × UserMetricEntity,
      (headerOnlyToAPI M (p.1, { Header := p.2.Header })).Header.LastChanged =
        p.2.Header.LastChanged := by
    intro p
    simp [headerOnlyToAPI, hLastChanged]
  have hresp : getUserMetricHeader M parseRFC3339 f ds request =
      .WriteHeaderAndEntity StatusOK (.headerList ((queryHeadersSince ds t 200).map
        (fun p => headerOnlyToAPI M (p.1, { Header := p.2.Header })))) := by
    obtain ⟨g, p, c, ga⟩ := f
    cases ga with
    | backend msg => exact absurd rfl (hread msg)
    | ok =>
      simp [getUserMetricHeader, hdate, datastoreGetAll, isErrFieldMismatch,
        maxNumberOfHeadersPerCall, List.map_map, Function.comp_def]
    | fieldMismatch =>
      simp [getUserMetricHeader, hdate, datastoreGetAll, isErrFieldMismatch,
        maxNumberOfHeadersPerCall, List.map_map, Function.comp_def]
  refine ⟨?_, _, rest, hresp, ?_, ?_, ?_, ?_, ?_, hperm, ?_⟩
  · intro habsent
    simp [dateFromOf, habsent] at hdate
    exact hdate.symm
  · rw [List.length_map, hlen]
    exact Nat.min_le_left _ _
  · rw [List.length_map, hlen]
  · intro x hx
    obtain ⟨p, hp, rfl⟩ := List.mem_map.mp hx
    rw [hproj p]
    exact (hmem p hp).2
  · unfold List.Sorted
    rw [List.pairwise_map]
    exact List.Pairwise.imp (fun {a b} h => by rw [hproj a, hproj b]; exact h) hsorted
  · rw [List.forall₂_map_left_iff, List.forall₂_same]
    intro p hp
    exact ⟨(hmem p hp).1, rfl, rfl⟩
  · intro x hx y hy
    obtain ⟨p, hp, rfl⟩ := List.mem_map.mp hx
    rw [hproj p]
    exact hrest p hp y hy

/-- Witness of C7: the listing of four Records without `dateFrom`, and the number of entries
of the listing of 250 Records. -/
theorem getUserMetricHeader_listing_witness :
    dateFromOf (fun _ => .error "parsing time") listRequest = .ok 0 ∧
    getUserMetricHeader verbatimMappers (fun _ => .error "parsing time") Faults.none listStore
        listRequest =
      .WriteHeaderAndEntity StatusOK (.headerList
        [ { Header := { Key := "m1", CreatorId := "c0", LastChanged := 10, Curated := false,
                        Deleted := false, Other := "de" } },
          { Header := { Key := "m2", CreatorId := "c0", LastChanged := 20, Curated := false,
                        Deleted := false, Other := "de" } },
          { Header := { Key := "m4", CreatorId := "c0", LastChanged := 20, Curated := false,
                        Deleted := false, Other := "de" } },
          { Header := { Key := "m3", CreatorId := "c0", LastChanged := 30, Curated := false,
                        Deleted := false, Other := "de" } } ]) ∧
    ∃ entries, getUserMetricHeader verbatimMappers (fun _ => .error "parsing time") Faults.none
        bigStore listRequest = .WriteHeaderAndEntity StatusOK (.headerList entries) ∧
      entries.length = 200 := by
  refine ⟨rfl, by decide, ?_⟩
  obtain ⟨_, entries, rest, hresp, _, hlen, _⟩ :=
    getUserMetricHeader_listing verbatimMappers (fun _ => .error "parsing time") Faults.none
      bigStore listRequest 0 rfl (by intro msg; simp [Faults.none]) (fun _ _ => rfl)
  refine ⟨entries, hresp, ?_⟩
  rw [hlen]
  have hall : bigStore.usermetricentity.filter
      (fun p => decide ((0 : Time) ≤ p.2.Header.LastChanged)) = bigStore.usermetricentity := by
    rw [List.filter_eq_self]
    intro p hp
    simp only [bigStore, List.mem_map, List.mem_range] at hp
    obtain ⟨i, _, rfl⟩ := hp
    simp [entityChangedAt]
  rw [hall]
  simp [bigStore]

/-! ## Tombstones -/

theorem TombstoneInvariant_putEntity (ds : Datastore) (key : String) (e : UserMetricEntity)
    (hinv : TombstoneInvariant ds) (he : e.Header.Deleted = true → e.MetricXML = "") :
    TombstoneInvariant
      { ds with usermetricentity := putEntity ds.usermetricentity key e } := by
  intro p hp
  rcases mem_putEntity _ _ _ _ hp with h | h
  · rw [h]
    exact he
  · exact hinv p h

/-- One call keeps the tombstone invariant, unless it is a replace whose request carries a
tombstone with a payload. -/
theorem step_TombstoneInvariant (M : CommonHeaderMappers) (ds : Datastore) (c : Call)
    (hinv : TombstoneInvariant ds) (hsafe : c.tombstoneSafe M) :
    TombstoneInvariant (step M ds c) := by
  obtain ⟨op, request, f, now⟩ := c
  cases op with
  | create =>
    rcases insertUserMetric_cases M f now ds request with
      ⟨h, _⟩ | ⟨metric, e0, stored, _, _, _, hstored, heq⟩
    · simp only [step]
      rw [h]
      exact hinv
    · simp only [step]
      rw [heq]
      refine TombstoneInvariant_putEntity ds _ stored hinv ?_
      intro hdel
      rw [hstored] at hdel
      simp at hdel
  | replace =>
    rcases updateUserMetric_cases M f now ds request with
      ⟨h, _⟩ | ⟨metric, stored, hr, _, hstored, heq⟩
    · simp only [step]
      rw [h]
      exact hinv
    · simp only [step]
      rw [heq]
      refine TombstoneInvariant_putEntity ds _ stored hinv ?_
      intro hdel
      have hxml : metric.MetricXML = "" := by
        refine hsafe rfl metric hr ?_
        rw [hstored] at hdel
        simpa [mapAPItoDBUserMetric, UserMetricEntity.new] using hdel
      rw [hstored]
      simpa [mapAPItoDBUserMetric] using hxml
  | softDelete =>
    rcases deleteUserMetricByKey_cases f now ds request with
      ⟨h, _⟩ | ⟨e0, stored, _, _, hstored, heq⟩
    · simp only [step]
      rw [h]
      exact hinv
    · simp only [step]
      rw [heq]
      refine TombstoneInvariant_putEntity ds _ stored hinv ?_
      intro _
      rw [hstored]
  | setCurated =>
    rcases curateUserMetricByKey_cases f now ds request with
      ⟨h, _⟩ | ⟨e0, b, stored, _, hl, _, hstored, heq⟩
    · simp only [step]
      rw [h]
      exact hinv
    · simp only [step]
      rw [heq]
      refine TombstoneInvariant_putEntity ds _ stored hinv ?_
      intro hdel
      rw [hstored] at hdel ⊢
      exact hinv (request.key, e0) (lookupEntity_mem _ _ _ hl) hdel

theorem run_TombstoneInvariant (M : CommonHeaderMappers) (calls : List Call) :
    ∀ ds : Datastore, TombstoneInvariant ds → (∀ c ∈ calls, c.tombstoneSafe M) →
      TombstoneInvariant (run M ds calls) := by
  induction calls with
  | nil =>
    intro ds hinv _
    exact hinv
  | cons c rest ih =>
    intro ds hinv hsafe
    have hstep := step_TombstoneInvariant M ds c hinv (hsafe c (List.mem_cons_self _ _))
    exact ih (step M ds c) hstep (fun d hd => hsafe d (List.mem_cons_of_mem _ hd))

/-- C4 (as stated, refuted): from the store holding no Record, one replace whose request
carries `Deleted = true` and the payload `<x/>` stores a Record with `Deleted = true` and that
payload. -/
theorem TombstoneInvariant_broken_by_replace :
    run verbatimMappers emptyStore [tombstoneReplaceCall] =
      { usermetricentity :=
          [("m1", { Header := { CreatorId := "c1", LastChanged := 10, Curated := true,
                                Deleted := true, Other := "en" }
                    MetricXML := "<x/>"
                    CreatorNick := "nick"
                    CreatorEmail := "nick@example.org" })]
        curatorentity := ["c1"] } ∧
    ¬ TombstoneInvariant (run verbatimMappers emptyStore [tombstoneReplaceCall]) := by
  have hrun : run verbatimMappers emptyStore [tombstoneReplaceCall] =
      { usermetricentity :=
          [("m1", { Header := { CreatorId := "c1", LastChanged := 10, Curated := true,
                                Deleted := true, Other := "en" }
                    MetricXML := "<x/>"
                    CreatorNick := "nick"
                    CreatorEmail := "nick@example.org" })]
        curatorentity := ["c1"] } := by decide
  refine ⟨hrun, ?_⟩
  intro hinv
  rw [hrun] at hinv
  have h := hinv _ (List.mem_singleton.mpr rfl) rfl
  exact absurd h (by decide)

/-- C4 (amended): starting from a store holding no Record, after every finite sequence of
create, replace, soft-delete and set-curated calls in which no replace request projects to a
header with `Deleted = true` while carrying a non-empty payload, every stored Record with
`Deleted = true` has the empty payload. -/
theorem TombstoneInvariant_reachable (M : CommonHeaderMappers) (curators : List String)
    (calls : List Call) (hsafe : ∀ c ∈ calls, c.tombstoneSafe M) :
    TombstoneInvariant (run M { usermetricentity := [], curatorentity := curators } calls) := by
  refine run_TombstoneInvariant M calls _ ?_ hsafe
  intro p hp
  simp at hp

/-- Witness of C4 (amended): a create, a replace of a live Record, its soft-delete and a
set-curated; the store then holds a tombstone. -/
theorem TombstoneInvariant_reachable_witness :
    (∀ c ∈ sampleCalls, c.tombstoneSafe verbatimMappers) ∧
    (lookupEntity (run verbatimMappers { usermetricentity := [], curatorentity := ["c1"] }
      sampleCalls).usermetricentity "m1").map (fun e => e.Header.Deleted) = some true ∧
    TombstoneInvariant
      (run verbatimMappers { usermetricentity := [], curatorentity := ["c1"] } sampleCalls) := by
  have hsafe : ∀ c ∈ sampleCalls, c.tombstoneSafe verbatimMappers := by
    intro c hc
    simp only [sampleCalls, List.mem_cons, List.mem_singleton, List.not_mem_nil, or_false] at hc
    rcases hc with rfl | rfl | rfl | rfl
    · intro h
      simp at h
    · intro _ metric hr hdel
      simp only [liveRequest, Except.ok.injEq] at hr
      subst hr
      simp [liveMetric, verbatimMappers] at hdel
    · intro h
      simp at h
    · intro h
      simp at h
  exact ⟨hsafe, by decide, TombstoneInvariant_reachable verbatimMappers ["c1"] sampleCalls hsafe⟩

/-- A tombstoned Record stays tombstoned under soft-delete and set-curated, whatever the
request. -/
theorem changeUserMetricByKey_keeps_tombstone (f : Faults) (now : Time) (ds : Datastore)
    (request : Request) (key : String) (e0 : UserMetricEntity)
    (hl : lookupEntity ds.usermetricentity key = some e0)
    (hdel : e0.Header.Deleted = true) :
    (∃ e1, lookupEntity (deleteUserMetricByKey f now ds request).1.usermetricentity key =
        some e1 ∧ e1.Header.Deleted = true) ∧
    (∃ e1, lookupEntity (curateUserMetricByKey f now ds request).1.usermetricentity key =
        some e1 ∧ e1.Header.Deleted = true) := by
  constructor
  · rcases deleteUserMetricByKey_cases f now ds request with
      ⟨h, _⟩ | ⟨e2, stored, hl2, _, hstored, heq⟩
    · rw [h]
      exact ⟨e0, hl, hdel⟩
    · rw [heq]
      by_cases hk : key = request.key
      · subst hk
        exact ⟨stored, lookupEntity_putEntity_same _ _ _, by rw [hstored]⟩
      · exact ⟨e0, by
          show lookupEntity (putEntity ds.usermetricentity request.key stored) key = some e0
          rw [lookupEntity_putEntity_other _ _ _ _ hk]
          exact hl, hdel⟩
  · rcases curateUserMetricByKey_cases f now ds request with
      ⟨h, _⟩ | ⟨e2, b, stored, _, hl2, _, hstored, heq⟩
    · rw [h]
      exact ⟨e0, hl, hdel⟩
    · rw [heq]
      by_cases hk : key = request.key
      · subst hk
        refine ⟨stored, lookupEntity_putEntity_same _ _ _, ?_⟩
        rw [hl] at hl2
        have he : e2 = e0 := (Option.some.inj hl2).symm
        rw [hstored, he]
        exact hdel
      · exact ⟨e0, by
          show lookupEntity (putEntity ds.usermetricentity request.key stored) key = some e0
          rw [lookupEntity_putEntity_other _ _ _ _ hk]
          exact hl, hdel⟩

/-- C5 (the code at the failing input): on the store holding a tombstoned Record at m1, create
of m1 answers 201 and leaves a Record with `Deleted = false` at m1. -/
theorem insertUserMetric_resurrects_tombstone :
    lookupEntity tombstoneStore.usermetricentity "m1" = some sampleTombstone ∧
    sampleTombstone.Header.Deleted = true ∧
    insertUserMetric verbatimMappers Faults.none 10 tombstoneStore sampleRequest =
      ({ usermetricentity :=
           [("m1", { Header := { CreatorId := "c1", LastChanged := 10, Curated := true,
                                 Deleted := false, Other := "en" }
                     MetricXML := "<x/>"
                     CreatorNick := "nick"
                     CreatorEmail := "nick@example.org" })]
         curatorentity := ["c1"] },
        .WriteHeaderAndEntity StatusCreated (.text "m1")) := by
  refine ⟨?_, ?_, ?_⟩ <;> decide

end CloudDB
